import Mathlib

/-!
Shallow embedding of the Reelr chat relay (socket event handlers over an
in-memory presence map and a durable conversation/message store).

The presence registry is the JS `Map` `onlineUsers` (userId -> socketId).
The durable store holds Conversation and Message documents; `clock` is a
monotone counter standing for the store's creation/update timestamps
(`timestamps: true` in the mongoose schemas), and `nextId` allocates
document ids.  Store operations that are `await`ed in the source are given
an injected failure flag, so that the `try`/`catch` at each event boundary
can be studied; on an injected failure the state reached so far persists,
exactly as a rejected mongoose promise leaves earlier writes in place.
-/

/-- The JS `Map` of online users, insertion ordered, keyed by user id. -/
abbrev OnlineMap : Type := List (String × String)

/-- `Map.prototype.set`: update in place if the key exists, else append. -/
def mapSet : OnlineMap → String → String → OnlineMap
  | [], k, v => [(k, v)]
  | (k', v') :: rest, k, v =>
      if k' = k then (k, v) :: rest else (k', v') :: mapSet rest k v

/-- `Map.prototype.delete`: remove the entry for the key, if any. -/
def mapDelete : OnlineMap → String → OnlineMap
  | [], _ => []
  | (k', v') :: rest, k =>
      if k' = k then mapDelete rest k else (k', v') :: mapDelete rest k

/-- `Map.prototype.get`: the value stored for the key, if any. -/
def mapGet : OnlineMap → String → Option String
  | [], _ => none
  | (k', v') :: rest, k => if k' = k then some v' else mapGet rest k

/-- `Map.prototype.has`. -/
def mapHas : OnlineMap → String → Bool
  | [], _ => false
  | (k', _) :: rest, k => if k' = k then true else mapHas rest k

/-- A Conversation document (`conversation.model.js`):
participants, `lastMessage` reference, mongoose timestamps. -/
structure Conversation where
  id : Nat
  participants : List String
  lastMessage : Option Nat
  createdAt : Nat
  updatedAt : Nat
deriving DecidableEq, Repr

/-- A Message document (`message.model.js`):
conversation reference, sender, text, seen flag, creation timestamp. -/
structure Message where
  id : Nat
  conversationId : Nat
  sender : String
  text : String
  seen : Bool
  createdAt : Nat
deriving DecidableEq, Repr

/-- The durable store: the two collections plus an id allocator and a
monotone timestamp counter. -/
structure Store where
  conversations : List Conversation
  messages : List Message
  nextId : Nat
  clock : Nat
deriving DecidableEq, Repr

def Store.empty : Store := ⟨[], [], 0, 0⟩

/-- `Conversation.findOne({ participants: { $all: [a, b] } })`. -/
def findConversation (st : Store) (a b : String) : Option Conversation :=
  st.conversations.find? (fun c => c.participants.contains a && c.participants.contains b)

/-- `Conversation.findById(cid)`. -/
def findConversationById (st : Store) (cid : Nat) : Option Conversation :=
  st.conversations.find? (fun c => c.id == cid)

/-- `Conversation.create({ participants: [a, b] })`: fresh id, no
`lastMessage`, timestamps from the store clock. -/
def createConversation (st : Store) (a b : String) : Store × Conversation :=
  let c : Conversation :=
    { id := st.nextId, participants := [a, b], lastMessage := none,
      createdAt := st.clock, updatedAt := st.clock }
  ({ st with conversations := st.conversations ++ [c],
             nextId := st.nextId + 1, clock := st.clock + 1 }, c)

/-- `Message.create({ conversationId, sender, text })`: fresh id, `seen`
defaults to false, `createdAt` from the store clock. -/
def createMessage (st : Store) (cid : Nat) (sender text : String) : Store × Message :=
  let m : Message :=
    { id := st.nextId, conversationId := cid, sender := sender, text := text,
      seen := false, createdAt := st.clock }
  ({ st with messages := st.messages ++ [m],
             nextId := st.nextId + 1, clock := st.clock + 1 }, m)

/-- `conversation.lastMessage = mid; await conversation.save()`:
persist the new `lastMessage` pointer, refresh `updatedAt`. -/
def saveLastMessage (st : Store) (cid mid : Nat) : Store :=
  { st with
    conversations := st.conversations.map
      (fun c => if c.id = cid then { c with lastMessage := some mid, updatedAt := st.clock } else c),
    clock := st.clock + 1 }

/-- Sort key used by `Message.find(...).sort(createdAt: 1)`. -/
def msgLE (m₁ m₂ : Message) : Prop := m₁.createdAt ≤ m₂.createdAt

instance : DecidableRel msgLE := fun m₁ m₂ => Nat.decLe m₁.createdAt m₂.createdAt

instance : IsTotal Message msgLE := ⟨fun a b => Nat.le_total a.createdAt b.createdAt⟩

instance : IsTrans Message msgLE := ⟨fun _ _ _ hab hbc => Nat.le_trans hab hbc⟩

/-- `Message.find(conversationId).sort(createdAt: 1)`: ascending, stable. -/
def sortMessages (ms : List Message) : List Message := List.insertionSort msgLE ms

/-- Sort key used by `Conversation.find(...).sort(updatedAt: -1)`. -/
def convDesc (c₁ c₂ : Conversation) : Prop := c₂.updatedAt ≤ c₁.updatedAt

instance : DecidableRel convDesc := fun c₁ c₂ => Nat.decLe c₂.updatedAt c₁.updatedAt

/-- Every outbound socket emission of the relay.  The first `String` of
each constructor is the socket id the event is sent to; `userOnline` and
`userOffline` are `io.emit` broadcasts to every connection. -/
inductive OutEvent where
  | userOnline (userId : String)
  | userOffline (userId : String)
  | messageSent (sid : String) (messageId conversationId timestamp : Nat)
  | receiveMessage (sid : String) (fromUser messageText : String)
      (messageId conversationId timestamp : Nat)
  | messageError (sid : String) (error details : String)
  | messagesLoaded (sid : String) (messages : List Message) (conversationId : Option Nat)
  | messagesError (sid : String) (error : String)
  | conversationsLoaded (sid : String) (conversations : List Conversation)
  | onlineStatuses (sid : String) (statuses : List (String × Bool))
deriving DecidableEq, Repr

/-- JS falsiness of `to` / `message`: absent, or the empty string. -/
def jsFalsy : Option String → Bool
  | none => true
  | some s => s.isEmpty

/-- Injected failures for the four awaited store operations of
`send-message` (findOne, Conversation.create, Message.create, save). -/
structure SendFail where
  find : Bool
  create : Bool
  createMsg : Bool
  save : Bool
deriving DecidableEq, Repr

/-- No injected failure: every store operation succeeds. -/
def sendOk : SendFail := ⟨false, false, false, false⟩

/-- Failure injected only at `conversation.save()`. -/
def sendSaveFail : SendFail := ⟨false, false, false, true⟩

/-- Failure injected only at `Conversation.findOne`. -/
def sendFindFail : SendFail := ⟨true, false, false, false⟩

/-- The `receive-message` delivery of `send-message` step 6: emitted to the
recipient's current socket only when the recipient is in `onlineUsers`. -/
def recvEvents (online : OnlineMap) (recipientId senderId text : String)
    (mid cid ts : Nat) : List OutEvent :=
  match mapGet online recipientId with
  | some rsid => [OutEvent.receiveMessage rsid senderId text mid cid ts]
  | none => []

/-- The tail of the `send-message` handler once a conversation is in hand:
create the message, persist the `lastMessage` pointer, then emit
`message-sent` to the sender and (conditionally) `receive-message`. -/
def sendAfterConv (f : SendFail) (online : OnlineMap)
    (socketId userId recipientId text : String) (st : Store) (conv : Conversation) :
    Store × Except String (List OutEvent) :=
  if f.createMsg then (st, Except.error "Message.create failed")
  else
    let p := createMessage st conv.id userId text
    if f.save then (p.1, Except.error "Conversation.save failed")
    else
      let st2 := saveLastMessage p.1 conv.id p.2.id
      (st2, Except.ok
        (OutEvent.messageSent socketId p.2.id conv.id p.2.createdAt ::
          recvEvents online recipientId userId text p.2.id conv.id p.2.createdAt))

/-- The body of the `send-message` handler (the inside of its `try`).
Returns the store as left by the executed writes, and either the emitted
events or the error that was thrown. -/
def sendMessageBody (f : SendFail) (online : OnlineMap) (socketId userId : String)
    (toId msgText : Option String) (st : Store) : Store × Except String (List OutEvent) :=
  if jsFalsy toId || jsFalsy msgText then (st, Except.ok [])
  else
    let recipientId := toId.getD ""
    let text := msgText.getD ""
    if f.find then (st, Except.error "Conversation.findOne failed")
    else
      match findConversation st userId recipientId with
      | some conv => sendAfterConv f online socketId userId recipientId text st conv
      | none =>
          if f.create then (st, Except.error "Conversation.create failed")
          else
            let q := createConversation st userId recipientId
            sendAfterConv f online socketId userId recipientId text q.1 q.2

/-- The `send-message` handler: the body under its `catch`, which turns a
thrown error into a `message-error` emission to the sender. -/
def sendMessage (f : SendFail) (online : OnlineMap) (socketId userId : String)
    (toId msgText : Option String) (st : Store) : Store × List OutEvent :=
  let r := sendMessageBody f online socketId userId toId msgText st
  match r.2 with
  | Except.ok evs => (r.1, evs)
  | Except.error e => (r.1, [OutEvent.messageError socketId "Failed to send message" e])

/-- Injected failures for the two awaited reads of `load-messages`. -/
structure LoadFail where
  findConv : Bool
  findMsgs : Bool
deriving DecidableEq, Repr

/-- No injected failure for `load-messages`. -/
def loadOk : LoadFail := ⟨false, false⟩

/-- Failure injected at the conversation lookup of `load-messages`. -/
def loadFindFail : LoadFail := ⟨true, false⟩

/-- Conversation resolution of `load-messages`: by id when `conversationId`
is given (no fallback), else by participant pair, else none. -/
def resolveConversation (st : Store) (userId : String) :
    Option Nat → Option String → Option Conversation
  | some cid, _ => findConversationById st cid
  | none, some rid => findConversation st userId rid
  | none, none => none

/-- Whether `load-messages` actually awaits a conversation lookup (only
then can that lookup fail). -/
def loadFindRan : Option Nat → Option String → Bool
  | some _, _ => true
  | none, some _ => true
  | none, none => false

/-- The tail of `load-messages` after conversation resolution: an empty
`messages-loaded` (without a conversation id) when nothing resolved, else
the conversation's messages sorted ascending by creation time, capped
at 100. -/
def loadAfterResolve (f : LoadFail) (st : Store) (socketId : String) :
    Option Conversation → Except String (List OutEvent)
  | none => Except.ok [OutEvent.messagesLoaded socketId [] none]
  | some conv =>
      if f.findMsgs then Except.error "Message.find failed"
      else Except.ok
        [OutEvent.messagesLoaded socketId
          ((sortMessages (st.messages.filter (fun m => m.conversationId == conv.id))).take 100)
          (some conv.id)]

/-- The body of the `load-messages` handler (the inside of its `try`). -/
def loadMessagesBody (f : LoadFail) (st : Store) (socketId userId : String)
    (cid? : Option Nat) (rid? : Option String) : Except String (List OutEvent) :=
  if f.findConv && loadFindRan cid? rid? then Except.error "Conversation find failed"
  else loadAfterResolve f st socketId (resolveConversation st userId cid? rid?)

/-- The `load-messages` handler: reads only, so the store comes back
unchanged; its `catch` emits `messages-error` to the requester. -/
def loadMessages (f : LoadFail) (st : Store) (socketId userId : String)
    (cid? : Option Nat) (rid? : Option String) : Store × List OutEvent :=
  (st, match loadMessagesBody f st socketId userId cid? rid? with
       | Except.ok evs => evs
       | Except.error _ => [OutEvent.messagesError socketId "Failed to load messages"])

/-- The body of the `get-conversations` handler: all conversations the
user participates in, most recently updated first. -/
def getConversationsBody (fail : Bool) (st : Store) (userId : String) :
    Except String (List Conversation) :=
  if fail then Except.error "Conversation.find failed"
  else Except.ok
    (List.insertionSort convDesc (st.conversations.filter (fun c => c.participants.contains userId)))

/-- The `get-conversations` handler: reads only; its `catch` only logs —
no event is emitted on failure. -/
def getConversations (fail : Bool) (st : Store) (socketId userId : String) :
    Store × List OutEvent :=
  (st, match getConversationsBody fail st userId with
       | Except.ok cs => [OutEvent.conversationsLoaded socketId cs]
       | Except.error _ => [])

/-- The `check-online-status` handler: one boolean per requested id,
straight from `onlineUsers.has`. -/
def checkOnlineStatus (online : OnlineMap) (socketId : String) (userIds : List String) :
    List OutEvent :=
  [OutEvent.onlineStatuses socketId (userIds.map (fun i => (i, mapHas online i)))]

/-- The connection handler's presence effects: `onlineUsers.set(userId,
socket.id)` and the `user-online` broadcast. -/
def connectHandler (online : OnlineMap) (userId socketId : String) :
    OnlineMap × List OutEvent :=
  (mapSet online userId socketId, [OutEvent.userOnline userId])

/-- The `disconnect` handler: `onlineUsers.delete(userId)` followed
unconditionally by the `user-offline` broadcast.  The closure receives no
socket id to compare against. -/
def disconnectHandler (online : OnlineMap) (userId : String) :
    OnlineMap × List OutEvent :=
  (mapDelete online userId, [OutEvent.userOffline userId])

/-- `n` successive successful `send-message` calls from `a` to `b`, the
`k`-th carrying text `texts k`; only the store is tracked. -/
def sendN (texts : Nat → String) (a b : String) : Nat → Store
  | 0 => Store.empty
  | n + 1 => (sendMessage sendOk [] "s" a (some b) (some (texts n)) (sendN texts a b n)).1

/-- Closed form of the store after `sendN`: one conversation (id 0) and
one message per send, message `k` having id `k+1` and `createdAt 2k+1`. -/
def expectedStore (texts : Nat → String) (a b : String) (n : Nat) : Store :=
  if n = 0 then Store.empty
  else
    { conversations := [⟨0, [a, b], some n, 0, 2 * n⟩],
      messages := (List.range n).map
        (fun k => ⟨k + 1, 0, a, texts k, false, 2 * k + 1⟩),
      nextId := n + 1, clock := 2 * n + 1 }

/-- Two concurrent first `send-message` events (`a → b` and `b → a`) on an
empty store, interleaved at their `await` points in the order: A's
`findOne`, B's `findOne`, A's `create`, B's `create`, then each task's
message creation and save.  Each task performs its own operations in
program order, so this is a schedule the event loop can produce. -/
def racedFirstSends (a b textA textB : String) : Store :=
  let st0 := Store.empty
  let foundA := findConversation st0 a b
  let foundB := findConversation st0 b a
  let pA := match foundA with
    | some c => (st0, c)
    | none => createConversation st0 a b
  let pB := match foundB with
    | some c => (pA.1, c)
    | none => createConversation pA.1 b a
  let qA := createMessage pB.1 pA.2.id a textA
  let st4 := saveLastMessage qA.1 pA.2.id qA.2.id
  let qB := createMessage st4 pB.2.id b textB
  saveLastMessage qB.1 pB.2.id qB.2.id

/-- How many Conversation documents exist for the unordered pair. -/
def countConversationsFor (st : Store) (a b : String) : Nat :=
  (st.conversations.filter
    (fun c => c.participants.contains a && c.participants.contains b)).length

/-- The message list carried by a single `messages-loaded` emission. -/
def msgsOf : List OutEvent → List Message
  | [OutEvent.messagesLoaded _ ms _] => ms
  | _ => []

/-! ### Presence-map lemmas -/

theorem mapHas_iff_mapGet (m : OnlineMap) (k : String) :
    mapHas m k = true ↔ ∃ v, mapGet m k = some v := by
  induction m with
  | nil => simp [mapHas, mapGet]
  | cons kv rest ih =>
      obtain ⟨k', v'⟩ := kv
      by_cases hk : k' = k
      · simp [mapHas, mapGet, hk]
      · simp [mapHas, mapGet, hk, ih]

/-! ### Error-boundary plumbing lemmas -/

theorem sendMessage_of_error (f : SendFail) (online : OnlineMap) (sid uid : String)
    (toId msgText : Option String) (st : Store) (e : String)
    (h : (sendMessageBody f online sid uid toId msgText st).2 = Except.error e) :
    sendMessage f online sid uid toId msgText st
      = ((sendMessageBody f online sid uid toId msgText st).1,
         [OutEvent.messageError sid "Failed to send message" e]) := by
  simp only [sendMessage]
  rw [h]

theorem loadMessages_of_error (f : LoadFail) (st : Store) (sid uid : String)
    (cid? : Option Nat) (rid? : Option String) (e : String)
    (h : loadMessagesBody f st sid uid cid? rid? = Except.error e) :
    loadMessages f st sid uid cid? rid?
      = (st, [OutEvent.messagesError sid "Failed to load messages"]) := by
  simp only [loadMessages]
  rw [h]

theorem sendAfterConv_error_state (f : SendFail) (online : OnlineMap)
    (sid uid rid text : String) (st : Store) (conv : Conversation) (e : String)
    (h : (sendAfterConv f online sid uid rid text st conv).2 = Except.error e) :
    (sendAfterConv f online sid uid rid text st conv).1.conversations = st.conversations
    ∧ ∃ ms, (sendAfterConv f online sid uid rid text st conv).1.messages = st.messages ++ ms
        ∧ ms.length ≤ 1 := by
  unfold sendAfterConv at h ⊢
  by_cases hcm : f.createMsg = true
  · simp [hcm]
  · by_cases hs : f.save = true
    · simp [hcm, hs, createMessage]
    · simp [hcm, hs] at h

/-- Claim C1 (refuted by the code): a stale disconnect arriving after a
newer `register` is supposed to leave the newer handle registered and emit
no `user-offline`.  The `disconnect` handler instead deletes the entry for
the identity unconditionally and always broadcasts `user-offline`: after
`u` connects on `s1` and reconnects on `s2` (registry maps `u` to `s2`),
the stale disconnect of `s1` removes the entry (lookup yields `none`, not
`s2`) and emits the offline broadcast. -/
theorem claim_C1_stale_disconnect_eval :
    mapGet (connectHandler (connectHandler [] "u" "s1").1 "u" "s2").1 "u" = some "s2"
    ∧ (disconnectHandler (connectHandler (connectHandler [] "u" "s1").1 "u" "s2").1 "u").1 = []
    ∧ mapGet (disconnectHandler (connectHandler (connectHandler [] "u" "s1").1 "u" "s2").1 "u").1 "u"
        ≠ some "s2"
    ∧ (disconnectHandler (connectHandler (connectHandler [] "u" "s1").1 "u" "s2").1 "u").2
        = [OutEvent.userOffline "u"] := by
  decide

/-- Claim C2 (refuted by the code): two first `send-message` events between
`a` and `b` interleaved at their `await` points (both `findOne`s before
either `create`) leave TWO Conversation documents for the unordered pair,
not the single one the claim requires; the lookup-or-create is not atomic
and no store-level uniqueness constraint exists. -/
theorem claim_C2_conversation_race_eval :
    countConversationsFor (racedFirstSends "a" "b" "hi" "yo") "a" "b" = 2 := by
  decide

/-- Claim C3, counterexample: a store failure inside `get-conversations`
is caught but produces NO outbound event at all — the catch block only
logs — contradicting the claim that every per-event store failure is
converted into an outbound error event to the originating connection. -/
theorem claim_C3_counterexample :
    getConversationsBody true Store.empty "u" = Except.error "Conversation.find failed"
    ∧ (getConversations true Store.empty "s" "u").2 = [] :=
  ⟨rfl, rfl⟩

/-- Claim C3 as amended: a store failure in `send-message` is converted
into a `message-error` event to the sender, a store failure in
`load-messages` into a `messages-error` event to the requester, and a
store failure in `get-conversations` is caught at the event boundary
(the handler completes normally) but emits no event. -/
theorem claim_C3_amended_error_boundaries :
    (∀ (f : SendFail) (online : OnlineMap) (sid uid : String)
        (toId msgText : Option String) (st : Store) (e : String),
        (sendMessageBody f online sid uid toId msgText st).2 = Except.error e →
        (sendMessage f online sid uid toId msgText st).2
          = [OutEvent.messageError sid "Failed to send message" e])
    ∧ (∀ (f : LoadFail) (st : Store) (sid uid : String)
        (cid? : Option Nat) (rid? : Option String) (e : String),
        loadMessagesBody f st sid uid cid? rid? = Except.error e →
        (loadMessages f st sid uid cid? rid?).2
          = [OutEvent.messagesError sid "Failed to load messages"])
    ∧ (∀ (st : Store) (sid uid e : String),
        getConversationsBody true st uid = Except.error e →
        (getConversations true st sid uid).2 = []) := by
  refine ⟨?_, ?_, ?_⟩
  · intro f online sid uid toId msgText st e h
    rw [sendMessage_of_error f online sid uid toId msgText st e h]
  · intro f st sid uid cid? rid? e h
    rw [loadMessages_of_error f st sid uid cid? rid? e h]
  · intro st sid uid e h
    simp only [getConversations]
    rw [h]

/-- Witness for C3: concrete failing runs of all three handlers. -/
theorem claim_C3_amended_witness :
    (sendMessageBody sendFindFail [] "s1" "a" (some "b") (some "hi") Store.empty).2
      = Except.error "Conversation.findOne failed"
    ∧ (sendMessage sendFindFail [] "s1" "a" (some "b") (some "hi") Store.empty).2
      = [OutEvent.messageError "s1" "Failed to send message" "Conversation.findOne failed"]
    ∧ loadMessagesBody loadFindFail Store.empty "s1" "a" none (some "b")
      = Except.error "Conversation find failed"
    ∧ (loadMessages loadFindFail Store.empty "s1" "a" none (some "b")).2
      = [OutEvent.messagesError "s1" "Failed to load messages"]
    ∧ getConversationsBody true Store.empty "u" = Except.error "Conversation.find failed"
    ∧ (getConversations true Store.empty "s" "u").2 = [] :=
  ⟨rfl,
   claim_C3_amended_error_boundaries.1 sendFindFail [] "s1" "a" (some "b") (some "hi")
     Store.empty "Conversation.findOne failed" rfl,
   rfl,
   claim_C3_amended_error_boundaries.2.1 loadFindFail Store.empty "s1" "a" none (some "b")
     "Conversation find failed" rfl,
   rfl,
   claim_C3_amended_error_boundaries.2.2 Store.empty "s" "u" "Conversation.find failed" rfl⟩

/-- Claim C4, counterexample: `send-message` with an empty `message` (or a
missing `to`) does NOT emit `message-error` — the handler logs and
returns, emitting nothing at all (and indeed writes nothing). -/
theorem claim_C4_counterexample :
    sendMessage sendOk [] "s1" "alice" (some "bob") (some "") Store.empty = (Store.empty, [])
    ∧ sendMessage sendOk [] "s1" "alice" none (some "hi") Store.empty = (Store.empty, []) := by
  decide

/-- Claim C4 as amended: on empty `message` or missing `to` the handler
returns silently — no events of any kind (in particular no
`message-error`) and no Conversation or Message side effects. -/
theorem claim_C4_amended_silent_reject (f : SendFail) (online : OnlineMap)
    (sid uid : String) (toId msgText : Option String) (st : Store)
    (h : (jsFalsy toId || jsFalsy msgText) = true) :
    sendMessage f online sid uid toId msgText st = (st, []) := by
  simp [sendMessage, sendMessageBody, h]

/-- Witness for C4: the empty-text send on an empty store. -/
theorem claim_C4_amended_witness :
    (jsFalsy (some "bob") || jsFalsy (some "")) = true
    ∧ sendMessage sendOk [] "s1" "alice" (some "bob") (some "") Store.empty = (Store.empty, []) :=
  ⟨by decide,
   claim_C4_amended_silent_reject sendOk [] "s1" "alice" (some "bob") (some "") Store.empty
     (by decide)⟩

/-- Claim C7, counterexample: when `conversation.save()` (the
`lastMessage` update) fails, the already-created Message persists, so the
residual state is not only an empty Conversation: after a failing send on
an empty store the message collection is non-empty. -/
theorem claim_C7_counterexample :
    (sendMessageBody sendSaveFail [] "s1" "a" (some "b") (some "hi") Store.empty).2
      = Except.error "Conversation.save failed"
    ∧ ((sendMessage sendSaveFail [] "s1" "a" (some "b") (some "hi") Store.empty).1).messages
      = [⟨1, 0, "a", "hi", false, 1⟩] :=
  ⟨rfl, by decide⟩

/-- Claim C7 as amended: if a store write of `send-message` fails, no
`message-sent` and no `receive-message` is emitted — the sender gets a
single `message-error` carrying the diagnostic detail — and the residual
state is the prior store plus at most one Conversation (with no
`lastMessage`) and at most one Message (the latter exactly when the
failure was the `lastMessage` update, whose pointer then stays unset). -/
theorem claim_C7_amended_failure_state (f : SendFail) (online : OnlineMap)
    (sid uid : String) (toId msgText : Option String) (st : Store) (e : String)
    (h : (sendMessageBody f online sid uid toId msgText st).2 = Except.error e) :
    (sendMessage f online sid uid toId msgText st).2
      = [OutEvent.messageError sid "Failed to send message" e]
    ∧ (sendMessage f online sid uid toId msgText st).1
      = (sendMessageBody f online sid uid toId msgText st).1
    ∧ (∃ cs, (sendMessageBody f online sid uid toId msgText st).1.conversations
          = st.conversations ++ cs ∧ cs.length ≤ 1 ∧ ∀ c ∈ cs, c.lastMessage = none)
    ∧ (∃ ms, (sendMessageBody f online sid uid toId msgText st).1.messages
          = st.messages ++ ms ∧ ms.length ≤ 1) := by
  refine ⟨by rw [sendMessage_of_error f online sid uid toId msgText st e h],
          by rw [sendMessage_of_error f online sid uid toId msgText st e h], ?_⟩
  unfold sendMessageBody at h ⊢
  by_cases hval : (jsFalsy toId || jsFalsy msgText) = true
  · simp [hval] at h
  · simp only [hval, Bool.false_eq_true, if_false] at h ⊢
    by_cases hf : f.find = true
    · simp [hf]
    · simp only [hf, Bool.false_eq_true, if_false] at h ⊢
      cases hfc : findConversation st uid (toId.getD "") with
      | some conv =>
          simp only [hfc] at h ⊢
          obtain ⟨hc, ms, hm, hlen⟩ := sendAfterConv_error_state f online sid uid
            (toId.getD "") (msgText.getD "") st conv e h
          exact ⟨⟨[], by simp [hc], by simp, by simp⟩, ⟨ms, hm, hlen⟩⟩
      | none =>
          simp only [hfc] at h ⊢
          by_cases hcr : f.create = true
          · simp [hcr]
          · simp only [hcr, Bool.false_eq_true, if_false] at h ⊢
            obtain ⟨hc, ms, hm, hlen⟩ := sendAfterConv_error_state f online sid uid
              (toId.getD "") (msgText.getD "") (createConversation st uid (toId.getD "")).1
              (createConversation st uid (toId.getD "")).2 e h
            refine ⟨⟨[(createConversation st uid (toId.getD "")).2], ?_, by simp, ?_⟩,
                    ⟨ms, ?_, hlen⟩⟩
            · rw [hc]; simp [createConversation]
            · simp [createConversation]
            · rw [hm]; simp [createConversation]

/-- Witness for C7: the save-failure run on an empty store. -/
theorem claim_C7_amended_witness :
    (sendMessageBody sendSaveFail [] "s1" "a" (some "b") (some "hi") Store.empty).2
      = Except.error "Conversation.save failed"
    ∧ ((sendMessage sendSaveFail [] "s1" "a" (some "b") (some "hi") Store.empty).2
        = [OutEvent.messageError "s1" "Failed to send message" "Conversation.save failed"]
      ∧ (sendMessage sendSaveFail [] "s1" "a" (some "b") (some "hi") Store.empty).1
        = (sendMessageBody sendSaveFail [] "s1" "a" (some "b") (some "hi") Store.empty).1
      ∧ (∃ cs, (sendMessageBody sendSaveFail [] "s1" "a" (some "b") (some "hi") Store.empty).1.conversations
            = Store.empty.conversations ++ cs ∧ cs.length ≤ 1 ∧ ∀ c ∈ cs, c.lastMessage = none)
      ∧ (∃ ms, (sendMessageBody sendSaveFail [] "s1" "a" (some "b") (some "hi") Store.empty).1.messages
            = Store.empty.messages ++ ms ∧ ms.length ≤ 1)) :=
  ⟨rfl, claim_C7_amended_failure_state sendSaveFail [] "s1" "a" (some "b") (some "hi")
    Store.empty "Conversation.save failed" rfl⟩

/-- Claim C9: `check-online-status` answers one boolean per requested id,
true exactly when that id currently has an entry in the presence
registry; the handler performs no store operation and always emits the
single `online-statuses` event. -/
theorem claim_C9_check_online_status (online : OnlineMap) (sid : String) (ids : List String) :
    ∃ statuses, checkOnlineStatus online sid ids = [OutEvent.onlineStatuses sid statuses]
      ∧ statuses.map Prod.fst = ids
      ∧ ∀ p ∈ statuses, (p.2 = true ↔ ∃ v, mapGet online p.1 = some v) := by
  have hfst : ∀ l : List String, (l.map (fun i => (i, mapHas online i))).map Prod.fst = l := by
    intro l
    induction l with
    | nil => rfl
    | cons x xs ih => simp [ih]
  refine ⟨ids.map (fun i => (i, mapHas online i)), rfl, hfst ids, ?_⟩
  intro p hp
  obtain ⟨i, -, rfl⟩ := List.mem_map.mp hp
  simpa using mapHas_iff_mapGet online i

/-- Witness for C9: one registered and one never-seen identity give
`true` and `false` respectively. -/
theorem claim_C9_witness :
    ∃ statuses, checkOnlineStatus (mapSet [] "u1" "s1") "s" ["u1", "u2"]
        = [OutEvent.onlineStatuses "s" statuses]
      ∧ statuses.map Prod.fst = ["u1", "u2"]
      ∧ ∀ p ∈ statuses, (p.2 = true ↔ ∃ v, mapGet (mapSet [] "u1" "s1") p.1 = some v) :=
  claim_C9_check_online_status (mapSet [] "u1" "s1") "s" ["u1", "u2"]

/-- Claim C10: when neither `conversationId` nor `recipientId` resolves to
a conversation (including when both are absent), `load-messages` emits a
`messages-loaded` event with an empty message list and no conversation id,
and the store comes back unchanged (the handler only reads). -/
theorem claim_C10_unresolved_load (f : LoadFail) (st : Store) (sid uid : String)
    (cid? : Option Nat) (rid? : Option String)
    (hf : f.findConv = false)
    (h : resolveConversation st uid cid? rid? = none) :
    loadMessages f st sid uid cid? rid? = (st, [OutEvent.messagesLoaded sid [] none]) := by
  simp [loadMessages, loadMessagesBody, hf, h, loadAfterResolve]

/-- Witness for C10: both payload fields absent on the empty store. -/
theorem claim_C10_witness :
    loadOk.findConv = false
    ∧ resolveConversation Store.empty "u" none none = none
    ∧ loadMessages loadOk Store.empty "s" "u" none none
        = (Store.empty, [OutEvent.messagesLoaded "s" [] none]) :=
  ⟨rfl, rfl, claim_C10_unresolved_load loadOk Store.empty "s" "u" none none rfl rfl⟩

/-- Claim C8: a successful `send-message` (valid input, all store writes
succeed) always emits `message-sent` (message id, conversation id,
timestamp) to the sender's own socket, followed by exactly one
`receive-message` to the recipient's registered socket when the recipient
is in the presence registry and by nothing at all when it is not — in
particular no error reaches the sender for an offline recipient. -/
theorem claim_C8_delivery (online : OnlineMap) (sid uid b t : String) (st : Store)
    (hb : String.isEmpty b = false) (ht : String.isEmpty t = false) :
    ∃ mid cid ts,
      (sendMessage sendOk online sid uid (some b) (some t) st).2
        = OutEvent.messageSent sid mid cid ts :: recvEvents online b uid t mid cid ts := by
  cases hfc : findConversation st uid b with
  | some conv =>
      refine ⟨(createMessage st conv.id uid t).2.id, conv.id,
              (createMessage st conv.id uid t).2.createdAt, ?_⟩
      simp [sendMessage, sendMessageBody, jsFalsy, hb, ht, sendOk, hfc, sendAfterConv]
  | none =>
      refine ⟨(createMessage (createConversation st uid b).1
                (createConversation st uid b).2.id uid t).2.id,
              (createConversation st uid b).2.id,
              (createMessage (createConversation st uid b).1
                (createConversation st uid b).2.id uid t).2.createdAt, ?_⟩
      simp [sendMessage, sendMessageBody, jsFalsy, hb, ht, sendOk, hfc, sendAfterConv]

/-- Witness for C8: recipient `b` online at socket `sB`. -/
theorem claim_C8_witness :
    String.isEmpty "b" = false ∧ String.isEmpty "hi" = false
    ∧ ∃ mid cid ts,
        (sendMessage sendOk [("b", "sB")] "sA" "a" (some "b") (some "hi") Store.empty).2
          = OutEvent.messageSent "sA" mid cid ts
            :: recvEvents [("b", "sB")] "b" "a" "hi" mid cid ts :=
  ⟨rfl, rfl,
   claim_C8_delivery [("b", "sB")] "sA" "a" "b" "hi" Store.empty rfl rfl⟩

/-! ### Sorting and repeated-send helpers -/

theorem sortMessages_sorted (ms : List Message) : List.Sorted msgLE (sortMessages ms) :=
  List.sorted_insertionSort msgLE ms

theorem sortMessages_length (ms : List Message) : (sortMessages ms).length = ms.length :=
  List.length_insertionSort msgLE ms

theorem sorted_take_chain (l : List Message) (h : List.Sorted msgLE l) (n : Nat) :
    List.Chain' (fun m₁ m₂ : Message => m₁.createdAt ≤ m₂.createdAt) (l.take n) :=
  (List.Pairwise.sublist (List.take_sublist n l) h).chain'

theorem sorted_take_le_drop (l : List Message) (h : List.Sorted msgLE l) (n : Nat) :
    ∀ x ∈ l.take n, ∀ y ∈ l.drop n, x.createdAt ≤ y.createdAt := by
  have h2 : List.Pairwise msgLE (l.take n ++ l.drop n) := by
    rw [List.take_append_drop]
    exact h
  exact fun x hx y hy => (List.pairwise_append.mp h2).2.2 x hx y hy

theorem sendN_eq_expected (texts : Nat → String) (a b : String)
    (hb : String.isEmpty b = false) (ht : ∀ k, String.isEmpty (texts k) = false) (n : Nat) :
    sendN texts a b n = expectedStore texts a b n := by
  induction n with
  | zero => rfl
  | succ n ih =>
      rw [sendN, ih]
      cases n with
      | zero =>
          simp [sendMessage, sendMessageBody, jsFalsy, hb, ht 0, sendOk, expectedStore,
                findConversation, Store.empty, createConversation, createMessage,
                saveLastMessage, sendAfterConv, List.range_succ, List.range_zero]
      | succ m =>
          simp [sendMessage, sendMessageBody, jsFalsy, hb, ht (m + 1), sendOk, sendAfterConv,
                expectedStore, findConversation, createMessage, saveLastMessage, List.range_succ]
          omega

theorem expectedMsgs_sorted (texts : Nat → String) (a : String) (n : Nat) :
    List.Sorted msgLE ((List.range n).map
      (fun k => (⟨k + 1, 0, a, texts k, false, 2 * k + 1⟩ : Message))) := by
  rw [List.Sorted, List.pairwise_map]
  exact (List.pairwise_lt_range n).imp
    (fun h => Nat.succ_le_succ (Nat.mul_le_mul_left 2 (Nat.le_of_lt h)))

/-- Claim C5 as amended: for a conversation holding more than 100
messages, `load-messages` returns a window of exactly 100 messages in
non-decreasing creation-time order, and that window is the EARLIEST 100:
every returned message's creation time is at most that of every omitted
one, and at least one message is omitted. -/
theorem claim_C5_amended_earliest_window (st : Store) (sid uid rid : String)
    (conv : Conversation)
    (hres : findConversation st uid rid = some conv)
    (hcount : 100 < (st.messages.filter (fun m => m.conversationId == conv.id)).length) :
    ∃ msgs,
      (loadMessages loadOk st sid uid none (some rid)).2
        = [OutEvent.messagesLoaded sid msgs (some conv.id)]
      ∧ msgs.length = 100
      ∧ List.Chain' (fun m₁ m₂ : Message => m₁.createdAt ≤ m₂.createdAt) msgs
      ∧ (∀ x ∈ msgs, ∀ y ∈ (sortMessages (st.messages.filter
            (fun m => m.conversationId == conv.id))).drop 100, x.createdAt ≤ y.createdAt)
      ∧ (sortMessages (st.messages.filter (fun m => m.conversationId == conv.id))).drop 100
          ≠ [] := by
  refine ⟨(sortMessages (st.messages.filter (fun m => m.conversationId == conv.id))).take 100,
          ?_, ?_, ?_, ?_, ?_⟩
  · simp [loadMessages, loadMessagesBody, loadOk, resolveConversation, hres, loadAfterResolve]
  · rw [List.length_take, sortMessages_length]
    omega
  · exact sorted_take_chain _ (sortMessages_sorted _) 100
  · exact sorted_take_le_drop _ (sortMessages_sorted _) 100
  · have hlen := sortMessages_length (st.messages.filter (fun m => m.conversationId == conv.id))
    intro hnil
    rw [List.drop_eq_nil_iff] at hnil
    omega

set_option maxRecDepth 10000

/-- Claim C5, counterexample: after 101 sends from `a` to `b` the
conversation holds 101 messages, the newest of which has creation time
201, yet every one of the 100 messages returned by `load-messages` is
strictly older — the handler keeps the OLDEST 100 (ascending sort then
limit), not the most recent 100 the claim asserts. -/
theorem claim_C5_counterexample :
    (msgsOf (loadMessages loadOk (sendN (fun _ => "hi") "a" "b" 101) "s" "a"
        none (some "b")).2).length = 100
    ∧ (sendN (fun _ => "hi") "a" "b" 101).messages.length = 101
    ∧ (msgsOf (loadMessages loadOk (sendN (fun _ => "hi") "a" "b" 101) "s" "a"
        none (some "b")).2).all (fun m => m.createdAt < 201) = true
    ∧ (sendN (fun _ => "hi") "a" "b" 101).messages.any (fun m => m.createdAt == 201) = true := by
  decide

/-- Witness for C5: the 101-message conversation produced by 101 sends. -/
theorem claim_C5_amended_witness :
    (findConversation (sendN (fun _ => "hi") "a" "b" 101) "a" "b"
        = some ⟨0, ["a", "b"], some 101, 0, 202⟩)
    ∧ 100 < ((sendN (fun _ => "hi") "a" "b" 101).messages.filter
        (fun m => m.conversationId == 0)).length
    ∧ ∃ msgs,
        (loadMessages loadOk (sendN (fun _ => "hi") "a" "b" 101) "s" "a" none (some "b")).2
          = [OutEvent.messagesLoaded "s" msgs (some 0)]
        ∧ msgs.length = 100
        ∧ List.Chain' (fun m₁ m₂ : Message => m₁.createdAt ≤ m₂.createdAt) msgs
        ∧ (∀ x ∈ msgs, ∀ y ∈ (sortMessages ((sendN (fun _ => "hi") "a" "b" 101).messages.filter
              (fun m => m.conversationId == 0))).drop 100, x.createdAt ≤ y.createdAt)
        ∧ (sortMessages ((sendN (fun _ => "hi") "a" "b" 101).messages.filter
            (fun m => m.conversationId == 0))).drop 100 ≠ [] :=
  ⟨by decide, by decide,
   claim_C5_amended_earliest_window (sendN (fun _ => "hi") "a" "b" 101) "s" "a" "b"
     ⟨0, ["a", "b"], some 101, 0, 202⟩ (by decide) (by decide)⟩

/-- Claim C6: after `n` valid sends from `a` to `b` starting from an empty
store, `load-messages` for the pair returns one `messages-loaded` event
whose list has exactly `min n 100` messages in non-decreasing
creation-time order. -/
theorem claim_C6_history_count_order (a b sid : String) (texts : Nat → String) (n : Nat)
    (hb : String.isEmpty b = false) (ht : ∀ k, String.isEmpty (texts k) = false) :
    ∃ msgs cido,
      (loadMessages loadOk (sendN texts a b n) sid a none (some b)).2
        = [OutEvent.messagesLoaded sid msgs cido]
      ∧ msgs.length = min n 100
      ∧ List.Chain' (fun m₁ m₂ : Message => m₁.createdAt ≤ m₂.createdAt) msgs := by
  rw [sendN_eq_expected texts a b hb ht n]
  cases n with
  | zero =>
      refine ⟨[], none, ?_, by simp, List.chain'_nil⟩
      simp [loadMessages, loadMessagesBody, loadOk, resolveConversation, expectedStore,
            findConversation, Store.empty, loadAfterResolve]
  | succ m =>
      refine ⟨((List.range (m + 1)).map
          (fun k => (⟨k + 1, 0, a, texts k, false, 2 * k + 1⟩ : Message))).take 100,
          some 0, ?_, ?_, ?_⟩
      · have hfilter : (((List.range (m + 1)).map
            (fun k => (⟨k + 1, 0, a, texts k, false, 2 * k + 1⟩ : Message))).filter
            (fun msg => msg.conversationId == 0))
            = (List.range (m + 1)).map
              (fun k => (⟨k + 1, 0, a, texts k, false, 2 * k + 1⟩ : Message)) := by
          apply List.filter_eq_self.mpr
          intro x hx
          obtain ⟨k, -, rfl⟩ := List.mem_map.mp hx
          rfl
        have hsort : sortMessages ((List.range (m + 1)).map
            (fun k => (⟨k + 1, 0, a, texts k, false, 2 * k + 1⟩ : Message)))
            = (List.range (m + 1)).map
              (fun k => (⟨k + 1, 0, a, texts k, false, 2 * k + 1⟩ : Message)) :=
          (expectedMsgs_sorted texts a (m + 1)).insertionSort_eq
        simp [loadMessages, loadMessagesBody, loadOk, resolveConversation, expectedStore,
              findConversation, loadAfterResolve, hfilter, hsort]
      · simp [List.length_take]
        omega
      · exact sorted_take_chain _ (expectedMsgs_sorted texts a (m + 1)) 100

/-- Witness for C6: three sends, history of length `min 3 100 = 3`. -/
theorem claim_C6_witness :
    String.isEmpty "b" = false
    ∧ (∀ k : Nat, String.isEmpty ((fun _ => "hi") k) = false)
    ∧ ∃ msgs cido,
        (loadMessages loadOk (sendN (fun _ => "hi") "a" "b" 3) "s" "a" none (some "b")).2
          = [OutEvent.messagesLoaded "s" msgs cido]
        ∧ msgs.length = min 3 100
        ∧ List.Chain' (fun m₁ m₂ : Message => m₁.createdAt ≤ m₂.createdAt) msgs :=
  ⟨rfl, fun _ => rfl,
   claim_C6_history_count_order "a" "b" "s" (fun _ => "hi") 3 rfl (fun _ => rfl)⟩
